import Mathlib

/-!
# Verification of sunergy-calc (src/index.ts)

Shallow embedding of the solar-geometry and PV-estimation library.

Modelling conventions:
* JavaScript numbers in the trigonometric pipeline are modelled as real
  numbers (`ℝ`); all operations there are total real functions, so fields
  other than azimuth can never be the JavaScript `NaN`.
* The azimuth field and the arguments of `computePanelPower` /
  `estimateEnergyProduced` are modelled by `JsNum` (a real number or `NaN`),
  because the source assigns the literal `NaN` sentinel to azimuth and the
  guard comparisons of those functions have JavaScript NaN semantics
  (every `<`, `>`, `<=` comparison involving NaN is false).  The infinities
  are not modelled; `Number.isFinite` on a non-NaN value is modelled as true.
* A JavaScript `Date` is its epoch-milliseconds value (`ℤ`); an invalid
  date (or a non-`Date` argument) is `Option.none`.  The UTC accessors
  follow the ECMAScript specification (floor division / positive modulo;
  the year is obtained by the standard civil-from-days algorithm).
* `throw new Error(msg)` is `Except.error msg`.
-/

namespace Sunergy

/-- JavaScript number: a real value or the NaN sentinel (infinities not
modelled; no claim exercises them). -/
inductive JsNum where
  | num (x : ℝ)
  | nan

namespace JsNum

/-- JavaScript `a < b`: false whenever either side is NaN. -/
def jlt : JsNum → JsNum → Prop
  | num a, num b => a < b
  | _, _ => False

/-- JavaScript `a > b`: false whenever either side is NaN. -/
def jgt : JsNum → JsNum → Prop
  | num a, num b => b < a
  | _, _ => False

/-- JavaScript `a <= b`: false whenever either side is NaN. -/
def jle : JsNum → JsNum → Prop
  | num a, num b => a ≤ b
  | _, _ => False

/-- `Number.isFinite` (infinities are outside the model, so every
non-NaN value counts as finite). -/
def isFinite : JsNum → Prop
  | num _ => True
  | nan => False

/-- JavaScript multiplication restricted to the modelled values:
NaN propagates. -/
noncomputable def jmul : JsNum → JsNum → JsNum
  | num a, num b => num (a * b)
  | _, _ => nan

open Classical in
/-- JavaScript division restricted to the modelled values: NaN propagates.
Division by zero is collapsed to NaN (the source only divides by the
nonzero literal `1000`). -/
noncomputable def jdiv : JsNum → JsNum → JsNum
  | num a, num b => if b = 0 then nan else num (a / b)
  | _, _ => nan

noncomputable instance : ∀ a b : JsNum, Decidable (jlt a b)
  | num a, num b => inferInstanceAs (Decidable (a < b))
  | num _, nan => isFalse (fun h => h)
  | nan, num _ => isFalse (fun h => h)
  | nan, nan => isFalse (fun h => h)

noncomputable instance : ∀ a b : JsNum, Decidable (jgt a b)
  | num a, num b => inferInstanceAs (Decidable (b < a))
  | num _, nan => isFalse (fun h => h)
  | nan, num _ => isFalse (fun h => h)
  | nan, nan => isFalse (fun h => h)

noncomputable instance : ∀ a b : JsNum, Decidable (jle a b)
  | num a, num b => inferInstanceAs (Decidable (a ≤ b))
  | num _, nan => isFalse (fun h => h)
  | nan, num _ => isFalse (fun h => h)
  | nan, nan => isFalse (fun h => h)

instance : ∀ a : JsNum, Decidable (isFinite a)
  | num _ => isTrue trivial
  | nan => isFalse (fun h => h)


/-- The value is a defined (non-NaN) number lying in `[lo, hi)`. -/
def withinIco (a : JsNum) (lo hi : ℝ) : Prop :=
  match a with
  | num x => lo ≤ x ∧ x < hi
  | nan => False

/-- The value is a defined (non-NaN) number lying in `[lo, hi]`. -/
def withinIcc (a : JsNum) (lo hi : ℝ) : Prop :=
  match a with
  | num x => lo ≤ x ∧ x ≤ hi
  | nan => False

end JsNum

/-! ## Date model (ECMAScript UTC accessors over epoch milliseconds) -/

/-- ECMAScript `DayFromYear(y)`: the epoch day number of January 1 of
year `y` in the proleptic Gregorian calendar. -/
def daysFromYear (y : ℤ) : ℤ :=
  365 * (y - 1970) + (y - 1969).fdiv 4 - (y - 1901).fdiv 100 + (y - 1601).fdiv 400

/-- Calendar year containing epoch day `z` (ECMAScript `YearFromTime`,
computed by the standard civil-from-days algorithm). -/
def yearOfDay (z : ℤ) : ℤ :=
  let z2 := z + 719468
  let era := z2.fdiv 146097
  let doe := z2 - era * 146097
  let yoe := (doe - doe.fdiv 1460 + doe.fdiv 36524 - doe.fdiv 146096).fdiv 365
  let y := yoe + era * 400
  let doy := doe - (365 * yoe + yoe.fdiv 4 - yoe.fdiv 100)
  let mp := (5 * doy + 2).fdiv 153
  let m := mp + (if mp < 10 then 3 else -9)
  if m ≤ 2 then y + 1 else y

/-- `Date.prototype.getUTCFullYear` of an epoch-milliseconds value. -/
def getUTCFullYear (t : ℤ) : ℤ := yearOfDay (t.fdiv 86400000)

/-- `Date.prototype.getUTCHours`. -/
def getUTCHours (t : ℤ) : ℤ := (t.fdiv 3600000).emod 24

/-- `Date.prototype.getUTCMinutes`. -/
def getUTCMinutes (t : ℤ) : ℤ := (t.fdiv 60000).emod 60

/-- `Date.prototype.getUTCSeconds`. -/
def getUTCSeconds (t : ℤ) : ℤ := (t.fdiv 1000).emod 60

/-- `getDayOfYear` from the source: floor of the whole days elapsed since
`Date.UTC(year, 0, 0)` (midnight of December 31 of the preceding year,
whose epoch-milliseconds value is `(daysFromYear y - 1) * 86400000`). -/
def getDayOfYear (t : ℤ) : ℤ :=
  (t - (daysFromYear (getUTCFullYear t) - 1) * 86400000).fdiv 86400000

/-! ## Solar position pipeline -/

/-- `toRadians` from the source. -/
noncomputable def toRadians (deg : ℝ) : ℝ := deg * Real.pi / 180

/-- `toDegrees` from the source. -/
noncomputable def toDegrees (rad : ℝ) : ℝ := rad * 180 / Real.pi

/-- `clamp` from the source: `Math.max(min, Math.min(max, value))`. -/
noncomputable def clamp (value mn mx : ℝ) : ℝ := Max.max mn (Min.min mx value)

/-- `Math.round`: round half toward positive infinity. -/
noncomputable def jsRound (x : ℝ) : ℤ := ⌊x + 1 / 2⌋

/-- Truncation toward zero, as used by the JavaScript `%` operator. -/
noncomputable def jsTrunc (x : ℝ) : ℤ := if 0 ≤ x then ⌊x⌋ else ⌈x⌉

/-- JavaScript remainder `a % b` (sign of the dividend). -/
noncomputable def jsMod (a b : ℝ) : ℝ := a - b * (jsTrunc (a / b) : ℝ)

/-- All angles in degrees; `azimuth` is the NaN sentinel whenever the sun
is at or below the horizon (`JsNum.nan` models the JavaScript `NaN`). -/
structure SolarPosition where
  declination : ℝ
  hourAngle : ℝ
  altitude : ℝ
  azimuth : JsNum
  zenith : ℝ
  irradiance : ℝ

/-- Solar declination in degrees (source line: `decl`). -/
noncomputable def declOf (n : ℝ) : ℝ :=
  23.45 * Real.sin (toRadians (360 / 365 * (n - 81)))

/-- Approximate equation of time in minutes (source line: `eqTime`). -/
noncomputable def eqTimeOf (n : ℝ) : ℝ :=
  7.5 * Real.sin (toRadians (360 / 365 * (n - 81)))

/-- Nearest standard meridian (source line: `lstm`). -/
noncomputable def lstmOf (lon : ℝ) : ℝ := 15 * (jsRound (lon / 15) : ℝ)

/-- Hour angle in degrees: `15 * (solarTime - 12)` where
`solarTime = hours + (eqTime + 4 * (lon - lstm)) / 60`. -/
noncomputable def hourAngleOf (lon n hours : ℝ) : ℝ :=
  15 * (hours + (eqTimeOf n + 4 * (lon - lstmOf lon)) / 60 - 12)

/-- Clamped sine of the solar altitude (source `sinAlt`). -/
noncomputable def sinAltOf (lat lon n hours : ℝ) : ℝ :=
  clamp (Real.sin (toRadians lat) * Real.sin (toRadians (declOf n)) +
      Real.cos (toRadians lat) * Real.cos (toRadians (declOf n)) *
        Real.cos (toRadians (hourAngleOf lon n hours))) (-1) 1

/-- Solar altitude in degrees (source `altitude`). -/
noncomputable def altitudeOf (lat lon n hours : ℝ) : ℝ :=
  toDegrees (Real.arcsin (sinAltOf lat lon n hours))

/-- Azimuth denominator `den = Math.cos(toRadians(altitude))`. -/
noncomputable def denOf (lat lon n hours : ℝ) : ℝ :=
  Real.cos (toRadians (altitudeOf lat lon n hours))

open Classical in
/-- Clamped azimuth sine (source `sinAz`, with the zero-denominator
special case). -/
noncomputable def sinAzOf (lat lon n hours : ℝ) : ℝ :=
  clamp
    (if denOf lat lon n hours = 0 then 0
     else Real.cos (toRadians (declOf n)) *
        Real.sin (toRadians (hourAngleOf lon n hours)) / denOf lat lon n hours)
    (-1) 1

/-- First azimuth value `toDegrees(Math.asin(sinAz))`. -/
noncomputable def azPreOf (lat lon n hours : ℝ) : ℝ :=
  toDegrees (Real.arcsin (sinAzOf lat lon n hours))

open Classical in
/-- Azimuth in degrees, as computed inside the `altitude > 0` branch of the
source: quadrant correction, then normalisation `(azimuth + 360) % 360`. -/
noncomputable def azimuthOf (lat lon n hours : ℝ) : ℝ :=
  jsMod
    ((if hourAngleOf lon n hours > 0 then 180 - azPreOf lat lon n hours
      else 180 + azPreOf lat lon n hours) + 360) 360

open Classical in
/-- The `SolarPosition` assembled by the source once the inputs are
validated (`I0 = 1367` is the solar constant). -/
noncomputable def solarBody (lat lon n hours : ℝ) : SolarPosition :=
  if altitudeOf lat lon n hours > 0 then
    { declination := declOf n
      hourAngle := hourAngleOf lon n hours
      altitude := altitudeOf lat lon n hours
      azimuth := JsNum.num (azimuthOf lat lon n hours)
      zenith := 90 - altitudeOf lat lon n hours
      irradiance := Max.max 0 (1367 * sinAltOf lat lon n hours) }
  else
    { declination := declOf n
      hourAngle := hourAngleOf lon n hours
      altitude := altitudeOf lat lon n hours
      azimuth := JsNum.nan
      zenith := 90 - altitudeOf lat lon n hours
      irradiance := 0 }

/-- Fractional UTC hour-of-day used by the source (`hours`). -/
noncomputable def hoursOf (t : ℤ) : ℝ :=
  (getUTCHours t : ℝ) + (getUTCMinutes t : ℝ) / 60 + (getUTCSeconds t : ℝ) / 3600

open Classical in
/-- `computeSolarPotential` from the source.  Latitude and longitude are
real (so the `Number.isNaN` input tests of the source are vacuous here);
an invalid `Date` is `none`. -/
noncomputable def computeSolarPotential (lat lon : ℝ) (date : Option ℤ) :
    Except String SolarPosition :=
  if lat < -90 ∨ lat > 90 then .error "Latitude must be in [-90, 90]."
  else if lon < -180 ∨ lon > 180 then .error "Longitude must be in [-180, 180]."
  else
    match date with
    | none => .error "Invalid Date object."
    | some t => .ok (solarBody lat lon ((getDayOfYear t : ℤ) : ℝ) (hoursOf t))

/-! ## Panel power and energy estimation -/

open Classical in
/-- `computePanelPower` from the source (guards in source order; JavaScript
comparison semantics on possibly-NaN arguments). -/
noncomputable def computePanelPower (area efficiency irradiance : JsNum) :
    Except String JsNum :=
  if area.jlt (.num 0) ∨ ¬ area.isFinite then .error "Area must be >= 0."
  else if efficiency.jlt (.num 0) ∨ efficiency.jgt (.num 1) then
    .error "Efficiency in range 0-1."
  else if irradiance.jlt (.num 0) then .ok (.num 0)
  else .ok ((area.jmul efficiency).jmul irradiance)

open Classical in
/-- `estimateEnergyProduced` from the source (guards in source order; the
result is `area * efficiency * ((averageIrradiance * periodHours) / 1000)
* performanceRatio`). -/
noncomputable def estimateEnergyProduced
    (area efficiency averageIrradiance periodHours performanceRatio : JsNum) :
    Except String JsNum :=
  if area.jlt (.num 0) ∨ ¬ area.isFinite then .error "Panel area must be >= 0."
  else if efficiency.jlt (.num 0) ∨ efficiency.jgt (.num 1) then
    .error "Efficiency in range 0-1."
  else if averageIrradiance.jlt (.num 0) then .error "Irradiance must be >= 0"
  else if performanceRatio.jlt (.num 0) ∨ performanceRatio.jgt (.num 1) then
    .error "Performance ratio in 0-1"
  else if periodHours.jle (.num 0) then .error "Period hours must be > 0"
  else .ok (((area.jmul efficiency).jmul
      ((averageIrradiance.jmul periodHours).jdiv (.num 1000))).jmul performanceRatio)

/-- `estimateEnergyProduced` with the default `performanceRatio = 0.75`. -/
noncomputable def estimateEnergyProducedDefault
    (area efficiency averageIrradiance periodHours : JsNum) : Except String JsNum :=
  estimateEnergyProduced area efficiency averageIrradiance periodHours (.num 0.75)

/-- `sin(2 pi / 365)`: magnitude of the phase sine on day 80 (March 21),
where `n - 81 = -1`. -/
noncomputable def sinPhase80 : ℝ := Real.sin (2 * Real.pi / 365)

/-- Magnitude (radians) of the declination on day 80. -/
noncomputable def declAbs80 : ℝ := 23.45 * sinPhase80 * Real.pi / 180

/-- Magnitude (radians) of the hour angle at 12:00 UTC, longitude 0,
day 80. -/
noncomputable def haAbs80 : ℝ := 1.875 * sinPhase80 * Real.pi / 180

/-- Result record at (0, 0), 2025-03-22T00:00:00Z (midnight, day 81). -/
noncomputable def spMid : SolarPosition :=
  { declination := 0, hourAngle := -180, altitude := -90, azimuth := JsNum.nan,
    zenith := 180, irradiance := 0 }

/-- Result record at (0, 0), 2025-03-22T06:00:00Z. -/
noncomputable def spSix : SolarPosition :=
  { declination := 0, hourAngle := -90, altitude := 0, azimuth := JsNum.nan,
    zenith := 90, irradiance := 0 }

/-- Result record at (0, 0), 2025-03-22T12:00:00Z (solar noon, day 81). -/
noncomputable def spNoon : SolarPosition :=
  { declination := 0, hourAngle := 0, altitude := 90, azimuth := JsNum.num 180,
    zenith := 0, irradiance := 1367 }

/-- Result record at (0, 0), 2025-03-22T18:00:00Z. -/
noncomputable def spEven : SolarPosition :=
  { declination := 0, hourAngle := 90, altitude := 0, azimuth := JsNum.nan,
    zenith := 90, irradiance := 0 }

/-- Result record at (45, 0), 2025-03-22T12:00:00Z. -/
noncomputable def spLat45 : SolarPosition :=
  { declination := 0, hourAngle := 0, altitude := 45, azimuth := JsNum.num 180,
    zenith := 45, irradiance := 1367 * (Real.sqrt 2 / 2) }

/-- Truth of a predicate on the success value of an `Except` (false on
error); used to state claims about one concrete call without binders. -/
def exceptSat (r : Except String SolarPosition) (P : SolarPosition → Prop) : Prop :=
  match r with
  | .ok sp => P sp
  | .error _ => False

/-- An `Except` result is an error. -/
def isError {ε α : Type} : Except ε α → Prop
  | .error _ => True
  | .ok _ => False

/-! ## Helper lemmas -/

namespace JsNum

@[simp] theorem jlt_num_num (a b : ℝ) : jlt (num a) (num b) ↔ a < b := Iff.rfl

@[simp] theorem jgt_num_num (a b : ℝ) : jgt (num a) (num b) ↔ b < a := Iff.rfl

@[simp] theorem jle_num_num (a b : ℝ) : jle (num a) (num b) ↔ a ≤ b := Iff.rfl

@[simp] theorem not_jlt_nan_left (b : JsNum) : ¬ jlt nan b := fun h => nomatch b, h

@[simp] theorem not_jlt_nan_right (a : JsNum) : ¬ jlt a nan := fun h => nomatch a, h

@[simp] theorem not_jgt_nan_left (b : JsNum) : ¬ jgt nan b := fun h => nomatch b, h

@[simp] theorem not_jgt_nan_right (a : JsNum) : ¬ jgt a nan := fun h => nomatch a, h

@[simp] theorem not_jle_nan_left (b : JsNum) : ¬ jle nan b := fun h => nomatch b, h

@[simp] theorem not_jle_nan_right (a : JsNum) : ¬ jle a nan := fun h => nomatch a, h

@[simp] theorem isFinite_num (a : ℝ) : isFinite (num a) := trivial

@[simp] theorem not_isFinite_nan : ¬ isFinite nan := fun h => h

@[simp] theorem jmul_num_num (a b : ℝ) : jmul (num a) (num b) = num (a * b) := rfl

@[simp] theorem jmul_nan_right (a : JsNum) : jmul a nan = nan := by cases a <;> rfl

@[simp] theorem jmul_nan_left (a : JsNum) : jmul nan a = nan := by cases a <;> rfl

@[simp] theorem jdiv_num_num (a b : ℝ) (hb : b ≠ 0) :
    jdiv (num a) (num b) = num (a / b) := by
  simp [jdiv, hb]

@[simp] theorem jdiv_nan_left (a : JsNum) : jdiv nan a = nan := by cases a <;> rfl

end JsNum

theorem toRadians_zero : toRadians 0 = 0 := by
  unfold toRadians; ring

theorem clamp_mem (v : ℝ) : -1 ≤ clamp v (-1) 1 ∧ clamp v (-1) 1 ≤ 1 := by
  unfold clamp
  constructor
  · exact le_max_left _ _
  · exact max_le (by norm_num) (min_le_left _ _)

theorem clamp_eq_self {v : ℝ} (h1 : -1 ≤ v) (h2 : v ≤ 1) : clamp v (-1) 1 = v := by
  unfold clamp
  rw [min_eq_right h2, max_eq_right h1]

theorem toDegrees_arcsin_mem (x : ℝ) :
    -90 ≤ toDegrees (Real.arcsin x) ∧ toDegrees (Real.arcsin x) ≤ 90 := by
  have h1 := Real.neg_pi_div_two_le_arcsin x
  have h2 := Real.arcsin_le_pi_div_two x
  have hπ := Real.pi_pos
  unfold toDegrees
  constructor
  · rw [le_div_iff₀ hπ]; nlinarith
  · rw [div_le_iff₀ hπ]; nlinarith

theorem toDegrees_pos_iff {x : ℝ} : 0 < toDegrees x ↔ 0 < x := by
  unfold toDegrees
  have hπ := Real.pi_pos
  rw [div_pos_iff]
  constructor
  · rintro (⟨h, _⟩ | ⟨_, h⟩)
    · linarith
    · linarith
  · intro h
    exact Or.inl ⟨by linarith, hπ⟩

theorem altitudeOf_pos_iff {lat lon n hours : ℝ} :
    0 < altitudeOf lat lon n hours ↔ 0 < sinAltOf lat lon n hours := by
  unfold altitudeOf
  rw [toDegrees_pos_iff, Real.arcsin_pos]

theorem altitudeOf_mem (lat lon n hours : ℝ) :
    -90 ≤ altitudeOf lat lon n hours ∧ altitudeOf lat lon n hours ≤ 90 :=
  toDegrees_arcsin_mem _

theorem solarBody_altitude (lat lon n hours : ℝ) :
    (solarBody lat lon n hours).altitude = altitudeOf lat lon n hours := by
  unfold solarBody; split <;> rfl

theorem solarBody_zenith (lat lon n hours : ℝ) :
    (solarBody lat lon n hours).zenith = 90 - altitudeOf lat lon n hours := by
  unfold solarBody; split <;> rfl

theorem solarBody_of_nonpos {lat lon n hours : ℝ}
    (h : altitudeOf lat lon n hours ≤ 0) :
    (solarBody lat lon n hours).irradiance = 0 ∧
      (solarBody lat lon n hours).azimuth = JsNum.nan := by
  unfold solarBody
  rw [if_neg (not_lt.mpr h)]
  exact ⟨rfl, rfl⟩

theorem solarBody_of_pos {lat lon n hours : ℝ}
    (h : 0 < altitudeOf lat lon n hours) :
    (solarBody lat lon n hours).irradiance =
        Max.max 0 (1367 * sinAltOf lat lon n hours) ∧
      (solarBody lat lon n hours).azimuth =
        JsNum.num (azimuthOf lat lon n hours) := by
  unfold solarBody
  rw [if_pos h]
  exact ⟨rfl, rfl⟩

theorem computeSolarPotential_ok {lat lon : ℝ} {d : Option ℤ} {sp : SolarPosition}
    (h : computeSolarPotential lat lon d = .ok sp) :
    ∃ t, d = some t ∧
      sp = solarBody lat lon ((getDayOfYear t : ℤ) : ℝ) (hoursOf t) := by
  unfold computeSolarPotential at h
  split_ifs at h
  cases d with
  | none => exact absurd h (by simp)
  | some t =>
      refine ⟨t, rfl, ?_⟩
      simpa using h.symm

theorem jsMod_eq_of_mem {x : ℝ} (h1 : 360 ≤ x) (h2 : x < 720) :
    jsMod x 360 = x - 360 := by
  unfold jsMod jsTrunc
  have hdiv1 : (1 : ℝ) ≤ x / 360 := by
    rw [le_div_iff₀ (by norm_num : (0:ℝ) < 360)]; linarith
  have hdiv2 : x / 360 < 2 := by
    rw [div_lt_iff₀ (by norm_num : (0:ℝ) < 360)]; linarith
  rw [if_pos (by linarith)]
  have hfl : ⌊x / 360⌋ = 1 := by
    rw [Int.floor_eq_iff]
    constructor
    · exact_mod_cast hdiv1
    · push_cast; linarith
  rw [hfl]
  push_cast
  ring

theorem azPreOf_mem (lat lon n hours : ℝ) :
    -90 ≤ azPreOf lat lon n hours ∧ azPreOf lat lon n hours ≤ 90 := by
  unfold azPreOf
  exact toDegrees_arcsin_mem _

theorem azimuthOf_mem (lat lon n hours : ℝ) :
    90 ≤ azimuthOf lat lon n hours ∧ azimuthOf lat lon n hours ≤ 270 := by
  obtain ⟨hp1, hp2⟩ := azPreOf_mem lat lon n hours
  unfold azimuthOf
  set az2 := if hourAngleOf lon n hours > 0 then 180 - azPreOf lat lon n hours
    else 180 + azPreOf lat lon n hours with haz2
  have h2 : 90 ≤ az2 ∧ az2 ≤ 270 := by
    rw [haz2]
    split <;> constructor <;> linarith
  rw [jsMod_eq_of_mem (by linarith [h2.1]) (by linarith [h2.2])]
  constructor <;> linarith [h2.1, h2.2]

/-! ## Exact evaluations at day-of-year 81 (the shared phase term vanishes) -/

theorem toRadians_90 : toRadians 90 = Real.pi / 2 := by
  unfold toRadians; ring

theorem toRadians_45 : toRadians 45 = Real.pi / 4 := by
  unfold toRadians; ring

theorem toRadians_neg180 : toRadians (-180) = -Real.pi := by
  unfold toRadians; ring

theorem toRadians_neg90 : toRadians (-90) = -(Real.pi / 2) := by
  unfold toRadians; ring

theorem toDegrees_pi_div_two : toDegrees (Real.pi / 2) = 90 := by
  unfold toDegrees
  rw [div_eq_iff Real.pi_ne_zero]; ring

theorem toDegrees_neg_pi_div_two : toDegrees (-(Real.pi / 2)) = -90 := by
  unfold toDegrees
  rw [div_eq_iff Real.pi_ne_zero]; ring

theorem toDegrees_pi_div_four : toDegrees (Real.pi / 4) = 45 := by
  unfold toDegrees
  rw [div_eq_iff Real.pi_ne_zero]; ring

theorem toDegrees_zero : toDegrees 0 = 0 := by
  unfold toDegrees
  rw [div_eq_iff Real.pi_ne_zero]; ring

theorem declOf_81 : declOf 81 = 0 := by
  have h : (360 : ℝ) / 365 * ((81:ℝ) - 81) = 0 := by norm_num
  unfold declOf
  rw [h, toRadians_zero, Real.sin_zero, mul_zero]

theorem eqTimeOf_81 : eqTimeOf 81 = 0 := by
  have h : (360 : ℝ) / 365 * ((81:ℝ) - 81) = 0 := by norm_num
  unfold eqTimeOf
  rw [h, toRadians_zero, Real.sin_zero, mul_zero]

theorem jsRound_zero : jsRound 0 = 0 := by
  unfold jsRound
  rw [Int.floor_eq_iff]
  norm_num

theorem lstmOf_zero : lstmOf 0 = 0 := by
  unfold lstmOf
  rw [show (0:ℝ) / 15 = 0 by norm_num, jsRound_zero]
  norm_num

theorem hourAngleOf_zero_81 (h : ℝ) : hourAngleOf 0 81 h = 15 * (h - 12) := by
  unfold hourAngleOf
  rw [eqTimeOf_81, lstmOf_zero]
  ring

theorem sinAltOf_zero_81 (h : ℝ) :
    sinAltOf 0 0 81 h = clamp (Real.cos (toRadians (15 * (h - 12)))) (-1) 1 := by
  unfold sinAltOf
  rw [declOf_81, hourAngleOf_zero_81, toRadians_zero, Real.sin_zero, Real.cos_zero]
  ring_nf

theorem sinAltOf_noon81 : sinAltOf 0 0 81 12 = 1 := by
  rw [sinAltOf_zero_81, show (15:ℝ) * (12 - 12) = 0 by norm_num, toRadians_zero,
    Real.cos_zero, clamp_eq_self (by norm_num) (by norm_num)]

theorem altitudeOf_noon81 : altitudeOf 0 0 81 12 = 90 := by
  unfold altitudeOf
  rw [sinAltOf_noon81, Real.arcsin_one, toDegrees_pi_div_two]

theorem hourAngleOf_noon81 : hourAngleOf 0 81 12 = 0 := by
  rw [hourAngleOf_zero_81]; norm_num

theorem denOf_noon81 : denOf 0 0 81 12 = 0 := by
  unfold denOf
  rw [altitudeOf_noon81, toRadians_90, Real.cos_pi_div_two]

theorem sinAzOf_noon81 : sinAzOf 0 0 81 12 = 0 := by
  unfold sinAzOf
  rw [if_pos denOf_noon81, clamp_eq_self (by norm_num) (by norm_num)]

theorem azPreOf_noon81 : azPreOf 0 0 81 12 = 0 := by
  unfold azPreOf
  rw [sinAzOf_noon81, Real.arcsin_zero, toDegrees_zero]

theorem azimuthOf_noon81 : azimuthOf 0 0 81 12 = 180 := by
  unfold azimuthOf
  rw [hourAngleOf_noon81, if_neg (by norm_num : ¬ ((0:ℝ) > 0)), azPreOf_noon81,
    show (180:ℝ) + 0 + 360 = 540 by norm_num,
    jsMod_eq_of_mem (by norm_num) (by norm_num)]
  norm_num

theorem solarNoon81 : solarBody 0 0 81 12 = spNoon := by
  unfold solarBody spNoon
  rw [altitudeOf_noon81, if_pos (by norm_num : (90:ℝ) > 0), declOf_81,
    hourAngleOf_noon81, azimuthOf_noon81, sinAltOf_noon81]
  norm_num

theorem hoursOf_noon : hoursOf 1742644800000 = 12 := by
  unfold hoursOf
  rw [show getUTCHours 1742644800000 = 12 from by decide,
    show getUTCMinutes 1742644800000 = 0 from by decide,
    show getUTCSeconds 1742644800000 = 0 from by decide]
  norm_num

theorem eval_noon : computeSolarPotential 0 0 (some 1742644800000) = .ok spNoon := by
  unfold computeSolarPotential
  rw [if_neg (by norm_num : ¬ ((0:ℝ) < -90 ∨ (0:ℝ) > 90)),
    if_neg (by norm_num : ¬ ((0:ℝ) < -180 ∨ (0:ℝ) > 180))]
  show Except.ok (solarBody 0 0 ((getDayOfYear 1742644800000 : ℤ) : ℝ)
    (hoursOf 1742644800000)) = _
  rw [show getDayOfYear 1742644800000 = 81 from by decide, hoursOf_noon,
    show ((81:ℤ) : ℝ) = 81 by norm_num, solarNoon81]

theorem sinAltOf_mid81 : sinAltOf 0 0 81 0 = -1 := by
  rw [sinAltOf_zero_81, show (15:ℝ) * (0 - 12) = -180 by norm_num, toRadians_neg180,
    Real.cos_neg, Real.cos_pi, clamp_eq_self (by norm_num) (by norm_num)]

theorem altitudeOf_mid81 : altitudeOf 0 0 81 0 = -90 := by
  unfold altitudeOf
  rw [sinAltOf_mid81, Real.arcsin_neg_one, toDegrees_neg_pi_div_two]

theorem solarMid81 : solarBody 0 0 81 0 = spMid := by
  unfold solarBody spMid
  rw [altitudeOf_mid81, if_neg (by norm_num : ¬ ((-90:ℝ) > 0)), declOf_81,
    show hourAngleOf 0 81 0 = -180 from by rw [hourAngleOf_zero_81]; norm_num]
  norm_num

theorem hoursOf_mid : hoursOf 1742601600000 = 0 := by
  unfold hoursOf
  rw [show getUTCHours 1742601600000 = 0 from by decide,
    show getUTCMinutes 1742601600000 = 0 from by decide,
    show getUTCSeconds 1742601600000 = 0 from by decide]
  norm_num

theorem eval_mid : computeSolarPotential 0 0 (some 1742601600000) = .ok spMid := by
  unfold computeSolarPotential
  rw [if_neg (by norm_num : ¬ ((0:ℝ) < -90 ∨ (0:ℝ) > 90)),
    if_neg (by norm_num : ¬ ((0:ℝ) < -180 ∨ (0:ℝ) > 180))]
  show Except.ok (solarBody 0 0 ((getDayOfYear 1742601600000 : ℤ) : ℝ)
    (hoursOf 1742601600000)) = _
  rw [show getDayOfYear 1742601600000 = 81 from by decide, hoursOf_mid,
    show ((81:ℤ) : ℝ) = 81 by norm_num, solarMid81]

theorem sinAltOf_six81 : sinAltOf 0 0 81 6 = 0 := by
  rw [sinAltOf_zero_81, show (15:ℝ) * (6 - 12) = -90 by norm_num, toRadians_neg90,
    Real.cos_neg, Real.cos_pi_div_two, clamp_eq_self (by norm_num) (by norm_num)]

theorem altitudeOf_six81 : altitudeOf 0 0 81 6 = 0 := by
  unfold altitudeOf
  rw [sinAltOf_six81, Real.arcsin_zero, toDegrees_zero]

theorem solarSix81 : solarBody 0 0 81 6 = spSix := by
  unfold solarBody spSix
  rw [altitudeOf_six81, if_neg (by norm_num : ¬ ((0:ℝ) > 0)), declOf_81,
    show hourAngleOf 0 81 6 = -90 from by rw [hourAngleOf_zero_81]; norm_num]
  norm_num

theorem hoursOf_six : hoursOf 1742623200000 = 6 := by
  unfold hoursOf
  rw [show getUTCHours 1742623200000 = 6 from by decide,
    show getUTCMinutes 1742623200000 = 0 from by decide,
    show getUTCSeconds 1742623200000 = 0 from by decide]
  norm_num

theorem eval_six : computeSolarPotential 0 0 (some 1742623200000) = .ok spSix := by
  unfold computeSolarPotential
  rw [if_neg (by norm_num : ¬ ((0:ℝ) < -90 ∨ (0:ℝ) > 90)),
    if_neg (by norm_num : ¬ ((0:ℝ) < -180 ∨ (0:ℝ) > 180))]
  show Except.ok (solarBody 0 0 ((getDayOfYear 1742623200000 : ℤ) : ℝ)
    (hoursOf 1742623200000)) = _
  rw [show getDayOfYear 1742623200000 = 81 from by decide, hoursOf_six,
    show ((81:ℤ) : ℝ) = 81 by norm_num, solarSix81]

theorem sinAltOf_even81 : sinAltOf 0 0 81 18 = 0 := by
  rw [sinAltOf_zero_81, show (15:ℝ) * (18 - 12) = 90 by norm_num, toRadians_90,
    Real.cos_pi_div_two, clamp_eq_self (by norm_num) (by norm_num)]

theorem altitudeOf_even81 : altitudeOf 0 0 81 18 = 0 := by
  unfold altitudeOf
  rw [sinAltOf_even81, Real.arcsin_zero, toDegrees_zero]

theorem solarEven81 : solarBody 0 0 81 18 = spEven := by
  unfold solarBody spEven
  rw [altitudeOf_even81, if_neg (by norm_num : ¬ ((0:ℝ) > 0)), declOf_81,
    show hourAngleOf 0 81 18 = 90 from by rw [hourAngleOf_zero_81]; norm_num]
  norm_num

theorem hoursOf_even : hoursOf 1742666400000 = 18 := by
  unfold hoursOf
  rw [show getUTCHours 1742666400000 = 18 from by decide,
    show getUTCMinutes 1742666400000 = 0 from by decide,
    show getUTCSeconds 1742666400000 = 0 from by decide]
  norm_num

theorem eval_even : computeSolarPotential 0 0 (some 1742666400000) = .ok spEven := by
  unfold computeSolarPotential
  rw [if_neg (by norm_num : ¬ ((0:ℝ) < -90 ∨ (0:ℝ) > 90)),
    if_neg (by norm_num : ¬ ((0:ℝ) < -180 ∨ (0:ℝ) > 180))]
  show Except.ok (solarBody 0 0 ((getDayOfYear 1742666400000 : ℤ) : ℝ)
    (hoursOf 1742666400000)) = _
  rw [show getDayOfYear 1742666400000 = 81 from by decide, hoursOf_even,
    show ((81:ℤ) : ℝ) = 81 by norm_num, solarEven81]

theorem sqrt_two_lt_two : Real.sqrt 2 < 2 := by
  nlinarith [Real.sq_sqrt (show (0:ℝ) ≤ 2 by norm_num), Real.sqrt_nonneg 2]

theorem sinAltOf_lat45noon : sinAltOf 45 0 81 12 = Real.sqrt 2 / 2 := by
  unfold sinAltOf
  rw [declOf_81, hourAngleOf_zero_81, toRadians_zero,
    show (15:ℝ) * (12 - 12) = 0 by norm_num, toRadians_zero, toRadians_45,
    Real.sin_zero, Real.cos_zero, Real.cos_pi_div_four]
  rw [show Real.sin (Real.pi / 4) * 0 + Real.sqrt 2 / 2 * 1 * 1 = Real.sqrt 2 / 2 by ring]
  exact clamp_eq_self (by linarith [Real.sqrt_nonneg 2])
    (by linarith [sqrt_two_lt_two])

theorem arcsin_sqrt_two_div_two : Real.arcsin (Real.sqrt 2 / 2) = Real.pi / 4 := by
  rw [← Real.sin_pi_div_four]
  exact Real.arcsin_sin (by linarith [Real.pi_pos]) (by linarith [Real.pi_pos])

theorem altitudeOf_lat45noon : altitudeOf 45 0 81 12 = 45 := by
  unfold altitudeOf
  rw [sinAltOf_lat45noon, arcsin_sqrt_two_div_two, toDegrees_pi_div_four]

theorem denOf_lat45noon : denOf 45 0 81 12 = Real.sqrt 2 / 2 := by
  unfold denOf
  rw [altitudeOf_lat45noon, toRadians_45, Real.cos_pi_div_four]

theorem sinAzOf_lat45noon : sinAzOf 45 0 81 12 = 0 := by
  unfold sinAzOf
  have hpos : (0:ℝ) < Real.sqrt 2 / 2 := by positivity
  rw [denOf_lat45noon, if_neg (ne_of_gt hpos), declOf_81, hourAngleOf_noon81,
    toRadians_zero, Real.sin_zero]
  rw [show Real.cos 0 * 0 / (Real.sqrt 2 / 2) = 0 by ring]
  exact clamp_eq_self (by norm_num) (by norm_num)

theorem azPreOf_lat45noon : azPreOf 45 0 81 12 = 0 := by
  unfold azPreOf
  rw [sinAzOf_lat45noon, Real.arcsin_zero, toDegrees_zero]

theorem azimuthOf_lat45noon : azimuthOf 45 0 81 12 = 180 := by
  unfold azimuthOf
  rw [hourAngleOf_noon81, if_neg (by norm_num : ¬ ((0:ℝ) > 0)), azPreOf_lat45noon,
    show (180:ℝ) + 0 + 360 = 540 by norm_num,
    jsMod_eq_of_mem (by norm_num) (by norm_num)]
  norm_num

theorem solarLat45Noon : solarBody 45 0 81 12 = spLat45 := by
  unfold solarBody spLat45
  rw [altitudeOf_lat45noon, if_pos (by norm_num : (45:ℝ) > 0), declOf_81,
    hourAngleOf_noon81, azimuthOf_lat45noon, sinAltOf_lat45noon]
  have hmax : Max.max 0 (1367 * (Real.sqrt 2 / 2)) = 1367 * (Real.sqrt 2 / 2) :=
    max_eq_right (by positivity)
  rw [hmax]
  norm_num

theorem eval_lat45noon : computeSolarPotential 45 0 (some 1742644800000) = .ok spLat45 := by
  unfold computeSolarPotential
  rw [if_neg (by norm_num : ¬ ((45:ℝ) < -90 ∨ (45:ℝ) > 90)),
    if_neg (by norm_num : ¬ ((0:ℝ) < -180 ∨ (0:ℝ) > 180))]
  show Except.ok (solarBody 45 0 ((getDayOfYear 1742644800000 : ℤ) : ℝ)
    (hoursOf 1742644800000)) = _
  rw [show getDayOfYear 1742644800000 = 81 from by decide, hoursOf_noon,
    show ((81:ℤ) : ℝ) = 81 by norm_num, solarLat45Noon]

/-! ## Claim theorems -/

/-- C1: for every valid latitude, longitude and instant, if the computed
altitude is at or below the horizon then the returned `SolarPosition` has
irradiance `0` and the NaN azimuth sentinel. -/
theorem claim1_night_sentinel (lat lon : ℝ) (d : Option ℤ) (sp : SolarPosition)
    (h : computeSolarPotential lat lon d = .ok sp) (halt : sp.altitude ≤ 0) :
    sp.irradiance = 0 ∧ sp.azimuth = JsNum.nan := by
  obtain ⟨t, -, hsp⟩ := computeSolarPotential_ok h
  subst hsp
  rw [solarBody_altitude] at halt
  exact solarBody_of_nonpos halt

/-- Witness for C1: midnight UTC at (0, 0) on 2025-03-22, where the
altitude is exactly -90. -/
theorem claim1_witness :
    computeSolarPotential 0 0 (some 1742601600000) = .ok spMid ∧
      spMid.irradiance = 0 ∧ spMid.azimuth = JsNum.nan :=
  ⟨eval_mid, claim1_night_sentinel 0 0 _ _ eval_mid (by norm_num [spMid])⟩

/-- C2: for every valid latitude, longitude and instant, if the computed
altitude is above the horizon then the returned irradiance is strictly
positive and the azimuth is a defined angle in `[0, 360)`. -/
theorem claim2_day_values (lat lon : ℝ) (d : Option ℤ) (sp : SolarPosition)
    (h : computeSolarPotential lat lon d = .ok sp) (halt : 0 < sp.altitude) :
    0 < sp.irradiance ∧ sp.azimuth.withinIco 0 360 := by
  obtain ⟨t, -, hsp⟩ := computeSolarPotential_ok h
  subst hsp
  rw [solarBody_altitude] at halt
  obtain ⟨hirr, haz⟩ := solarBody_of_pos halt
  have hs : 0 < sinAltOf lat lon ((getDayOfYear t : ℤ) : ℝ) (hoursOf t) :=
    altitudeOf_pos_iff.mp halt
  refine ⟨?_, ?_⟩
  · rw [hirr]
    exact lt_max_of_lt_right (mul_pos (by norm_num) hs)
  · rw [haz]
    obtain ⟨h90, h270⟩ := azimuthOf_mem lat lon ((getDayOfYear t : ℤ) : ℝ) (hoursOf t)
    exact ⟨by linarith, by linarith⟩

/-- Witness for C2: noon UTC at (0, 0) on 2025-03-22, where the altitude is
exactly 90 and the azimuth exactly 180. -/
theorem claim2_witness :
    computeSolarPotential 0 0 (some 1742644800000) = .ok spNoon ∧
      0 < spNoon.irradiance ∧ spNoon.azimuth.withinIco 0 360 :=
  ⟨eval_noon, claim2_day_values 0 0 _ _ eval_noon (by norm_num [spNoon])⟩

/-- C3: every successfully returned `SolarPosition` satisfies
`zenith = 90 - altitude`. -/
theorem claim3_zenith_complement (lat lon : ℝ) (d : Option ℤ) (sp : SolarPosition)
    (h : computeSolarPotential lat lon d = .ok sp) :
    sp.zenith = 90 - sp.altitude := by
  obtain ⟨t, -, hsp⟩ := computeSolarPotential_ok h
  subst hsp
  rw [solarBody_zenith, solarBody_altitude]

/-- Witness for C3: 18:00 UTC at (0, 0) on 2025-03-22, where the altitude
is exactly 0 and the zenith exactly 90. -/
theorem claim3_witness :
    computeSolarPotential 0 0 (some 1742666400000) = .ok spEven ∧
      spEven.zenith = 90 - spEven.altitude :=
  ⟨eval_even, claim3_zenith_complement 0 0 _ _ eval_even⟩

/-- C9: the clamp keeps every asin argument inside `[-1, 1]`, and every
successfully returned altitude lies in `[-90, 90]` (all returned fields are
real numbers by construction, so none is NaN). -/
theorem claim9_asin_domain (lat lon : ℝ) (d : Option ℤ) (sp : SolarPosition) (v : ℝ)
    (h : computeSolarPotential lat lon d = .ok sp) :
    (-1 ≤ clamp v (-1) 1 ∧ clamp v (-1) 1 ≤ 1) ∧
      -90 ≤ sp.altitude ∧ sp.altitude ≤ 90 := by
  obtain ⟨t, -, hsp⟩ := computeSolarPotential_ok h
  subst hsp
  rw [solarBody_altitude]
  exact ⟨clamp_mem v, altitudeOf_mem lat lon _ _⟩

/-- Witness for C9: 06:00 UTC at (0, 0) on 2025-03-22 (altitude exactly 0)
and the out-of-domain clamp argument 2. -/
theorem claim9_witness :
    computeSolarPotential 0 0 (some 1742623200000) = .ok spSix ∧
      ((-1 ≤ clamp 2 (-1) 1 ∧ clamp 2 (-1) 1 ≤ 1) ∧
        -90 ≤ spSix.altitude ∧ spSix.altitude ≤ 90) :=
  ⟨eval_six, claim9_asin_domain 0 0 _ _ 2 eval_six⟩

/-- C10: whenever the sun is above the horizon the returned azimuth lies in
the closed interval `[90, 270]`: the program never reports an azimuth in
the northern compass half. -/
theorem claim10_azimuth_southern_half (lat lon : ℝ) (d : Option ℤ) (sp : SolarPosition)
    (h : computeSolarPotential lat lon d = .ok sp) (halt : 0 < sp.altitude) :
    sp.azimuth.withinIcc 90 270 := by
  obtain ⟨t, -, hsp⟩ := computeSolarPotential_ok h
  subst hsp
  rw [solarBody_altitude] at halt
  obtain ⟨-, haz⟩ := solarBody_of_pos halt
  rw [haz]
  exact azimuthOf_mem lat lon ((getDayOfYear t : ℤ) : ℝ) (hoursOf t)

/-- Witness for C10: noon UTC at (45, 0) on 2025-03-22, where the altitude
is exactly 45 and the azimuth exactly 180. -/
theorem claim10_witness :
    computeSolarPotential 45 0 (some 1742644800000) = .ok spLat45 ∧
      spLat45.azimuth.withinIcc 90 270 :=
  ⟨eval_lat45noon, claim10_azimuth_southern_half 45 0 _ _ eval_lat45noon
    (by norm_num [spLat45])⟩

/-! ## Guard evaluation lemmas for the panel and energy estimators -/

theorem areaGuard_num {a : ℝ} (ha : 0 ≤ a) :
    ¬ ((JsNum.num a).jlt (.num 0) ∨ ¬ (JsNum.num a).isFinite) := by
  simp only [JsNum.jlt_num_num, JsNum.isFinite_num, not_true, or_false]
  exact not_lt.mpr ha

theorem rangeGuard_num {e : ℝ} (he0 : 0 ≤ e) (he1 : e ≤ 1) :
    ¬ ((JsNum.num e).jlt (.num 0) ∨ (JsNum.num e).jgt (.num 1)) := by
  simp only [JsNum.jlt_num_num, JsNum.jgt_num_num]
  push_neg
  exact ⟨he0, he1⟩

theorem rangeGuard_nan : ¬ (JsNum.nan.jlt (.num 0) ∨ JsNum.nan.jgt (.num 1)) := by
  simp

theorem negGuard_num {x : ℝ} (hx : 0 ≤ x) : ¬ (JsNum.num x).jlt (.num 0) := by
  simp only [JsNum.jlt_num_num]
  exact not_lt.mpr hx

theorem periodGuard_num {h : ℝ} (hh : 0 < h) : ¬ (JsNum.num h).jle (.num 0) := by
  simp only [JsNum.jle_num_num]
  exact not_le.mpr hh

theorem computePanelPower_eval {a e x : ℝ} (ha : 0 ≤ a) (he0 : 0 ≤ e) (he1 : e ≤ 1)
    (hx : 0 ≤ x) :
    computePanelPower (.num a) (.num e) (.num x) = .ok (.num (a * e * x)) := by
  unfold computePanelPower
  rw [if_neg (areaGuard_num ha), if_neg (rangeGuard_num he0 he1),
    if_neg (negGuard_num hx)]
  rfl

theorem computePanelPower_negIrr {a e x : ℝ} (ha : 0 ≤ a) (he0 : 0 ≤ e) (he1 : e ≤ 1)
    (hx : x < 0) :
    computePanelPower (.num a) (.num e) (.num x) = .ok (.num 0) := by
  unfold computePanelPower
  rw [if_neg (areaGuard_num ha), if_neg (rangeGuard_num he0 he1),
    if_pos (by simpa only [JsNum.jlt_num_num] using hx)]

theorem estimateEnergy_eval {a e ir h pr : ℝ} (ha : 0 ≤ a) (he0 : 0 ≤ e) (he1 : e ≤ 1)
    (hir : 0 ≤ ir) (hh : 0 < h) (hp0 : 0 ≤ pr) (hp1 : pr ≤ 1) :
    estimateEnergyProduced (.num a) (.num e) (.num ir) (.num h) (.num pr) =
      .ok (.num (a * e * (ir * h / 1000) * pr)) := by
  unfold estimateEnergyProduced
  rw [if_neg (areaGuard_num ha), if_neg (rangeGuard_num he0 he1),
    if_neg (negGuard_num hir), if_neg (rangeGuard_num hp0 hp1),
    if_neg (periodGuard_num hh)]
  rw [JsNum.jmul_num_num, JsNum.jmul_num_num,
    JsNum.jdiv_num_num _ _ (by norm_num : (1000:ℝ) ≠ 0), JsNum.jmul_num_num,
    JsNum.jmul_num_num]

/-- C6: for a finite nonnegative area and an efficiency in [0, 1],
`computePanelPower` returns `area * efficiency * irradiance` for
nonnegative irradiance, returns 0 without failing for negative irradiance
(hence 0 for every irradiance at most 0), and is additive (hence linear) in
area and in efficiency for a fixed nonnegative irradiance. -/
theorem claim6_panel_power (a e x : ℝ) (ha : 0 ≤ a) (he0 : 0 ≤ e) (he1 : e ≤ 1) :
    (0 ≤ x → computePanelPower (.num a) (.num e) (.num x) = .ok (.num (a * e * x))) ∧
    (x < 0 → computePanelPower (.num a) (.num e) (.num x) = .ok (.num 0)) ∧
    (x ≤ 0 → computePanelPower (.num a) (.num e) (.num x) = .ok (.num 0)) ∧
    (∀ a1 a2 : ℝ, 0 ≤ a1 → 0 ≤ a2 → 0 ≤ x →
      computePanelPower (.num (a1 + a2)) (.num e) (.num x) =
        .ok (.num (a1 * e * x + a2 * e * x))) ∧
    (∀ e1 e2 : ℝ, 0 ≤ e1 → 0 ≤ e2 → e1 + e2 ≤ 1 → 0 ≤ x →
      computePanelPower (.num a) (.num (e1 + e2)) (.num x) =
        .ok (.num (a * e1 * x + a * e2 * x))) := by
  refine ⟨fun hx => computePanelPower_eval ha he0 he1 hx,
    fun hx => computePanelPower_negIrr ha he0 he1 hx,
    fun hx => ?_, fun a1 a2 h1 h2 hx => ?_, fun e1 e2 h1 h2 h12 hx => ?_⟩
  · rcases lt_or_eq_of_le hx with hlt | heq
    · exact computePanelPower_negIrr ha he0 he1 hlt
    · subst heq
      rw [computePanelPower_eval ha he0 he1 le_rfl, mul_zero]
  · rw [computePanelPower_eval (by linarith) he0 he1 hx,
      show (a1 + a2) * e * x = a1 * e * x + a2 * e * x from by ring]
  · rw [computePanelPower_eval ha (by linarith) h12 hx,
      show a * (e1 + e2) * x = a * e1 * x + a * e2 * x from by ring]

/-- Witness for C6 at the documented test values (2, 0.2, 1000) and
(2, 0.2, -10). -/
theorem claim6_witness :
    computePanelPower (.num 2) (.num 0.2) (.num 1000) = .ok (.num (2 * 0.2 * 1000)) ∧
    computePanelPower (.num 2) (.num 0.2) (.num (-10)) = .ok (.num 0) :=
  ⟨(claim6_panel_power 2 0.2 1000 (by norm_num) (by norm_num) (by norm_num)).1
      (by norm_num),
    (claim6_panel_power 2 0.2 (-10) (by norm_num) (by norm_num) (by norm_num)).2.1
      (by norm_num)⟩

/-- C7: for valid real arguments, `estimateEnergyProduced` returns
`area * efficiency * (avgIrradiance * periodHours / 1000) *
performanceRatio` kilowatt-hours, with the performance ratio defaulting
to 0.75 when omitted. -/
theorem claim7_energy_formula (a e ir h pr : ℝ) (ha : 0 ≤ a) (he0 : 0 ≤ e)
    (he1 : e ≤ 1) (hir : 0 ≤ ir) (hh : 0 < h) (hp0 : 0 ≤ pr) (hp1 : pr ≤ 1) :
    estimateEnergyProduced (.num a) (.num e) (.num ir) (.num h) (.num pr) =
      .ok (.num (a * e * (ir * h / 1000) * pr)) ∧
    estimateEnergyProducedDefault (.num a) (.num e) (.num ir) (.num h) =
      .ok (.num (a * e * (ir * h / 1000) * 0.75)) := by
  refine ⟨estimateEnergy_eval ha he0 he1 hir hh hp0 hp1, ?_⟩
  unfold estimateEnergyProducedDefault
  exact estimateEnergy_eval ha he0 he1 hir hh (by norm_num) (by norm_num)

/-- Witness for C7: the documented example
`estimateEnergyProduced(2, 0.2, 5000/24, 24, 0.8) = 1.6` (exactly, in real
arithmetic). -/
theorem claim7_witness :
    estimateEnergyProduced (.num 2) (.num 0.2) (.num (5000 / 24)) (.num 24)
      (.num 0.8) = .ok (.num 1.6) := by
  rw [(claim7_energy_formula 2 0.2 (5000 / 24) 24 0.8 (by norm_num) (by norm_num)
    (by norm_num) (by norm_num) (by norm_num) (by norm_num) (by norm_num)).1]
  norm_num

/-- C5's counterexample: a NaN efficiency is outside [0, 1], yet the call
returns a value (NaN) instead of failing, because every JavaScript
comparison against NaN is false. -/
theorem claim5_counterexample :
    estimateEnergyProduced (.num 1) .nan (.num 100) (.num 24) (.num 0.75) =
      .ok .nan := by
  unfold estimateEnergyProduced
  rw [if_neg (areaGuard_num (by norm_num : (0:ℝ) ≤ 1)), if_neg rangeGuard_nan,
    if_neg (negGuard_num (by norm_num : (0:ℝ) ≤ 100)),
    if_neg (rangeGuard_num (by norm_num) (by norm_num)),
    if_neg (periodGuard_num (by norm_num : (0:ℝ) < 24))]
  simp

theorem areaGuard_iff (area : JsNum) :
    (area.jlt (.num 0) ∨ ¬ area.isFinite) ↔
      area = .nan ∨ (∃ a, area = .num a ∧ a < 0) := by
  cases area <;> simp [JsNum.jlt, JsNum.isFinite]

theorem rangeGuard_iff (eff : JsNum) :
    (eff.jlt (.num 0) ∨ eff.jgt (.num 1)) ↔
      ∃ e, eff = .num e ∧ (e < 0 ∨ 1 < e) := by
  cases eff <;> simp [JsNum.jlt, JsNum.jgt]

theorem negGuard_iff (irr : JsNum) :
    irr.jlt (.num 0) ↔ ∃ x, irr = .num x ∧ x < 0 := by
  cases irr <;> simp [JsNum.jlt]

theorem periodGuard_iff (per : JsNum) :
    per.jle (.num 0) ↔ ∃ t, per = .num t ∧ t ≤ 0 := by
  cases per <;> simp [JsNum.jle]

/-- C5 amended: `estimateEnergyProduced` fails exactly when the area is NaN
or a negative real, the efficiency is a real outside [0, 1], the average
irradiance is a negative real, the performance ratio is a real outside
[0, 1], or the period is a real at most 0.  A NaN efficiency, irradiance,
performance ratio or period is therefore never rejected (JavaScript
comparisons against NaN are all false), and such calls return NaN. -/
theorem claim5_guard_characterization (area eff irr per pr : JsNum) :
    isError (estimateEnergyProduced area eff irr per pr) ↔
      (area = .nan ∨ (∃ a, area = .num a ∧ a < 0)) ∨
      (∃ e, eff = .num e ∧ (e < 0 ∨ 1 < e)) ∨
      (∃ x, irr = .num x ∧ x < 0) ∨
      (∃ p, pr = .num p ∧ (p < 0 ∨ 1 < p)) ∨
      (∃ t, per = .num t ∧ t ≤ 0) := by
  rw [← areaGuard_iff area, ← rangeGuard_iff eff, ← negGuard_iff irr,
    ← rangeGuard_iff pr, ← periodGuard_iff per]
  unfold estimateEnergyProduced
  split_ifs <;> simp_all [isError]

/-- Witness instance for C5's amended characterization: a negative area
fails. -/
theorem claim5_witness :
    isError (estimateEnergyProduced (.num (-2)) (.num 0.2) (.num 100) (.num 24)
      (.num 0.75)) :=
  (claim5_guard_characterization (.num (-2)) (.num 0.2) (.num 100) (.num 24)
    (.num 0.75)).mpr (Or.inl (Or.inr ⟨-2, rfl, by norm_num⟩))

/-- C8: `computeSolarPotential` fails exactly when the latitude is outside
[-90, 90], the longitude is outside [-180, 180], or the instant is invalid;
the three failures carry distinct messages naming the violated constraint,
and (structurally) no `SolarPosition` accompanies an error. -/
theorem claim8_validation (lat lon : ℝ) (d : Option ℤ) :
    (isError (computeSolarPotential lat lon d) ↔
      (lat < -90 ∨ 90 < lat) ∨ (lon < -180 ∨ 180 < lon) ∨ d = none) ∧
    ((lat < -90 ∨ 90 < lat) →
      computeSolarPotential lat lon d = .error "Latitude must be in [-90, 90].") ∧
    (¬ (lat < -90 ∨ 90 < lat) → (lon < -180 ∨ 180 < lon) →
      computeSolarPotential lat lon d = .error "Longitude must be in [-180, 180].") ∧
    (¬ (lat < -90 ∨ 90 < lat) → ¬ (lon < -180 ∨ 180 < lon) → d = none →
      computeSolarPotential lat lon d = .error "Invalid Date object.") ∧
    ("Latitude must be in [-90, 90]." ≠ "Longitude must be in [-180, 180]." ∧
      "Latitude must be in [-90, 90]." ≠ "Invalid Date object." ∧
      "Longitude must be in [-180, 180]." ≠ "Invalid Date object.") := by
  unfold computeSolarPotential
  refine ⟨?_, ?_, ?_, ?_, by decide, by decide, by decide⟩
  · cases d with
    | none => split_ifs <;> simp_all [isError]
    | some t => split_ifs <;> simp_all [isError]
  · intro hlat
    rw [if_pos hlat]
  · intro hlat hlon
    rw [if_neg hlat, if_pos hlon]
  · intro hlat hlon hd
    subst hd
    rw [if_neg hlat, if_neg hlon]

/-- Witness for C8: latitude -91 is rejected with the latitude message. -/
theorem claim8_witness :
    computeSolarPotential (-91) 0 (some 0) = .error "Latitude must be in [-90, 90]." :=
  (claim8_validation (-91) 0 (some 0)).2.1 (Or.inl (by norm_num))

/-! ## Day-80 (2025-03-21) noon bounds for C4 -/

theorem phase80 : toRadians (360 / 365 * ((80:ℝ) - 81)) = -(2 * Real.pi / 365) := by
  unfold toRadians; ring

theorem declOf_80 : declOf 80 = -(23.45 * sinPhase80) := by
  unfold declOf sinPhase80
  rw [phase80, Real.sin_neg]
  ring

theorem eqTimeOf_80 : eqTimeOf 80 = -(7.5 * sinPhase80) := by
  unfold eqTimeOf sinPhase80
  rw [phase80, Real.sin_neg]
  ring

theorem hourAngleOf_80noon : hourAngleOf 0 80 12 = -(1.875 * sinPhase80) := by
  unfold hourAngleOf
  rw [eqTimeOf_80, lstmOf_zero]
  ring

theorem toRadians_decl80 : toRadians (declOf 80) = -declAbs80 := by
  rw [declOf_80]
  unfold toRadians declAbs80
  ring

theorem toRadians_ha80 : toRadians (hourAngleOf 0 80 12) = -haAbs80 := by
  rw [hourAngleOf_80noon]
  unfold toRadians haAbs80
  ring

theorem sinPhase80_pos : 0 < sinPhase80 := by
  unfold sinPhase80
  exact Real.sin_pos_of_pos_of_lt_pi (by positivity) (by nlinarith [Real.pi_pos])

theorem sinPhase80_lt : sinPhase80 < 0.0172143 := by
  have h1 : sinPhase80 < 2 * Real.pi / 365 := by
    unfold sinPhase80
    exact Real.sin_lt (by positivity)
  nlinarith [Real.pi_lt_d6]

theorem declAbs80_nonneg : 0 ≤ declAbs80 := by
  unfold declAbs80
  exact div_nonneg (mul_nonneg (mul_nonneg (by norm_num) sinPhase80_pos.le)
    Real.pi_pos.le) (by norm_num)

theorem haAbs80_nonneg : 0 ≤ haAbs80 := by
  unfold haAbs80
  exact div_nonneg (mul_nonneg (mul_nonneg (by norm_num) sinPhase80_pos.le)
    Real.pi_pos.le) (by norm_num)

theorem absSum80_le : declAbs80 + haAbs80 ≤ 0.0077 := by
  unfold declAbs80 haAbs80
  nlinarith [mul_lt_mul_of_pos_right sinPhase80_lt Real.pi_pos, Real.pi_lt_d6,
    sinPhase80_pos, Real.pi_pos]

theorem cos_declAbs80_nonneg : 0 ≤ Real.cos declAbs80 := by
  refine Real.cos_nonneg_of_mem_Icc ⟨?_, ?_⟩
  · nlinarith [Real.pi_gt_three, declAbs80_nonneg]
  · nlinarith [Real.pi_gt_three, absSum80_le, haAbs80_nonneg]

theorem cos_haAbs80_nonneg : 0 ≤ Real.cos haAbs80 := by
  refine Real.cos_nonneg_of_mem_Icc ⟨?_, ?_⟩
  · nlinarith [Real.pi_gt_three, haAbs80_nonneg]
  · nlinarith [Real.pi_gt_three, absSum80_le, declAbs80_nonneg]

theorem cosProd80_le_one : Real.cos declAbs80 * Real.cos haAbs80 ≤ 1 :=
  mul_le_one₀ (Real.cos_le_one _) cos_haAbs80_nonneg (Real.cos_le_one _)

theorem cosProd80_ge : Real.cos 0.0077 ≤ Real.cos declAbs80 * Real.cos haAbs80 := by
  have hA0 := declAbs80_nonneg
  have hB0 := haAbs80_nonneg
  have hsum := absSum80_le
  have h1 : Real.cos (declAbs80 + haAbs80) ≤ Real.cos declAbs80 * Real.cos haAbs80 := by
    rw [Real.cos_add]
    have hsA : 0 ≤ Real.sin declAbs80 :=
      Real.sin_nonneg_of_nonneg_of_le_pi hA0 (by nlinarith [Real.pi_gt_three])
    have hsB : 0 ≤ Real.sin haAbs80 :=
      Real.sin_nonneg_of_nonneg_of_le_pi hB0 (by nlinarith [Real.pi_gt_three])
    nlinarith [mul_nonneg hsA hsB]
  have h2 : Real.cos 0.0077 ≤ Real.cos (declAbs80 + haAbs80) :=
    Real.cos_le_cos_of_nonneg_of_le_pi (by linarith)
      (by nlinarith [Real.pi_gt_three]) hsum
  linarith

theorem sinAltOf_80noon :
    sinAltOf 0 0 80 12 = Real.cos declAbs80 * Real.cos haAbs80 := by
  unfold sinAltOf
  rw [toRadians_zero, toRadians_decl80, toRadians_ha80, Real.sin_zero,
    Real.cos_zero, Real.cos_neg, Real.cos_neg,
    show (0:ℝ) * Real.sin (-declAbs80) + 1 * Real.cos declAbs80 * Real.cos haAbs80 =
      Real.cos declAbs80 * Real.cos haAbs80 from by ring]
  have hge : (0:ℝ) ≤ Real.cos declAbs80 * Real.cos haAbs80 :=
    mul_nonneg cos_declAbs80_nonneg cos_haAbs80_nonneg
  exact clamp_eq_self (by linarith) cosProd80_le_one

theorem cos_0077_ge : (0.99997:ℝ) ≤ Real.cos 0.0077 := by
  have h := Real.one_sub_sq_div_two_le_cos (x := (0.0077:ℝ))
  nlinarith

theorem sinAlt80_ge : (0.99997:ℝ) ≤ sinAltOf 0 0 80 12 := by
  rw [sinAltOf_80noon]
  linarith [cosProd80_ge, cos_0077_ge]

theorem arcsin80_ge : Real.pi / 2 - 0.0077 ≤ Real.arcsin (sinAltOf 0 0 80 12) := by
  have harc : Real.arcsin (Real.cos 0.0077) = Real.pi / 2 - 0.0077 := by
    rw [← Real.sin_pi_div_two_sub]
    exact Real.arcsin_sin (by nlinarith [Real.pi_gt_three])
      (by nlinarith [Real.pi_gt_three])
  have hmono := Real.monotone_arcsin (cosProd80_ge.trans_eq sinAltOf_80noon.symm)
  rw [harc] at hmono
  exact hmono

theorem altitudeOf_80noon_gt : (89.5:ℝ) < altitudeOf 0 0 80 12 := by
  unfold altitudeOf toDegrees
  rw [lt_div_iff₀ Real.pi_pos]
  nlinarith [arcsin80_ge, Real.pi_gt_three]

theorem hoursOf_80noon : hoursOf 1742558400000 = 12 := by
  unfold hoursOf
  rw [show getUTCHours 1742558400000 = 12 from by decide,
    show getUTCMinutes 1742558400000 = 0 from by decide,
    show getUTCSeconds 1742558400000 = 0 from by decide]
  norm_num

theorem eval_80noon : computeSolarPotential 0 0 (some 1742558400000) =
    .ok (solarBody 0 0 80 12) := by
  unfold computeSolarPotential
  rw [if_neg (by norm_num : ¬ ((0:ℝ) < -90 ∨ (0:ℝ) > 90)),
    if_neg (by norm_num : ¬ ((0:ℝ) < -180 ∨ (0:ℝ) > 180))]
  show Except.ok (solarBody 0 0 ((getDayOfYear 1742558400000 : ℤ) : ℝ)
    (hoursOf 1742558400000)) = _
  rw [show getDayOfYear 1742558400000 = 80 from by decide, hoursOf_80noon,
    show ((80:ℤ) : ℝ) = 80 by norm_num]

theorem solarBody_declination (lat lon n hours : ℝ) :
    (solarBody lat lon n hours).declination = declOf n := by
  unfold solarBody; split <;> rfl

theorem solarBody_hourAngle (lat lon n hours : ℝ) :
    (solarBody lat lon n hours).hourAngle = hourAngleOf lon n hours := by
  unfold solarBody; split <;> rfl

/-- C4: at latitude 0, longitude 0, 2025-03-21T12:00:00Z the returned
position has |declination| < 0.5, |90 - altitude| < 0.5, |hourAngle| <= 0.1
and irradiance > 1350 W/m2. -/
theorem claim4_equinox_noon :
    exceptSat (computeSolarPotential 0 0 (some 1742558400000)) (fun sp =>
      |sp.declination| < 0.5 ∧ |90 - sp.altitude| < 0.5 ∧ |sp.hourAngle| ≤ 0.1 ∧
        1350 < sp.irradiance) := by
  rw [eval_80noon]
  show |(solarBody 0 0 80 12).declination| < 0.5 ∧
    |90 - (solarBody 0 0 80 12).altitude| < 0.5 ∧
    |(solarBody 0 0 80 12).hourAngle| ≤ 0.1 ∧ 1350 < (solarBody 0 0 80 12).irradiance
  have hgt := altitudeOf_80noon_gt
  have hle := (altitudeOf_mem 0 0 80 12).2
  have hpos : 0 < altitudeOf 0 0 80 12 := by linarith
  obtain ⟨hirr, -⟩ := solarBody_of_pos hpos
  have hs0 := sinPhase80_pos
  have hs1 := sinPhase80_lt
  refine ⟨?_, ?_, ?_, ?_⟩
  · rw [solarBody_declination, declOf_80, abs_lt]
    constructor <;> nlinarith
  · rw [solarBody_altitude, abs_lt]
    constructor <;> linarith
  · rw [solarBody_hourAngle, hourAngleOf_80noon, abs_le]
    constructor <;> nlinarith
  · rw [hirr]
    refine lt_max_iff.mpr (Or.inr ?_)
    nlinarith [sinAlt80_ge]

end Sunergy
